import Mathlib

/-!
Verification of the ESP32 watchdog stretch-test sketch (`oppimistehtava2.ino`).

The sketch drives a persistent, reset-surviving state machine that measures
the maximum watchdog feed interval.  All persistent fields are `uint32_t`
in the source; here they are natural numbers and every arithmetic operation
that can overflow in C (increments, additions, and the wrapping subtraction
used on `millis()` values) is performed modulo 2^32 via `wrap32` / `sub32`.
Serial printing and the watchdog driver calls themselves carry no state that
the claims mention; the success of `esp_task_wdt_reset()` is modelled as a
boolean input, and `millis()` is modelled as an explicit `now` argument,
sampled once per loop iteration.
-/

/-- Modulus of `uint32_t` arithmetic. -/
def u32 : Nat := 4294967296

/-- Wrap a natural number into `uint32_t` range, as C unsigned arithmetic does. -/
def wrap32 (n : Nat) : Nat := n % u32

/-- C `uint32_t` subtraction `a - b` (wraps modulo 2^32). -/
def sub32 (a b : Nat) : Nat := (a + (u32 - b % u32)) % u32

-- --- Tuning knobs (source lines 6-16) ---
def kWdtTimeoutSeconds : Nat := 5
def kFeedIntervalMs : Nat := 1000
def kDisableWindowMs : Nat := 30000
def kStatusPrintIntervalMs : Nat := 5000
def kMinFeedCount : Nat := 6
def kStretchStartMs : Nat := 1000
def kStretchHoldMs : Nat := 8000
def kCoarseStepMs : Nat := 500
def kFineStepMs : Nat := 100

/-- Sentinel marker `kRtcMagic = 0xC0FFEE42` (source line 39). -/
def kRtcMagic : Nat := 0xC0FFEE42

/-- The `esp_reset_reason_t` values the sketch distinguishes
(`ESP_RST_POWERON`, `ESP_RST_EXT`, `ESP_RST_SW`, `ESP_RST_PANIC`,
`ESP_RST_INT_WDT`, `ESP_RST_TASK_WDT`, `ESP_RST_WDT`, `ESP_RST_DEEPSLEEP`,
`ESP_RST_BROWNOUT`, `ESP_RST_SDIO`, anything else = unknown). -/
inductive EspResetReason where
  | poweron
  | extPin
  | sw
  | panicRst
  | intWdt
  | taskWdt
  | otherWdt
  | deepsleep
  | brownout
  | sdio
  | unknown
deriving DecidableEq, Repr

-- Numeric values of `enum class Phase : uint32_t` (source lines 46-55).
-- The RTC record stores the raw `uint32_t`, so phases are plain naturals here.
namespace Phase

def FeedWarmup : Nat := 0
def ResetTest1 : Nat := 1
def ResetTest2 : Nat := 2
def Disabled30s : Nat := 3
def FeedAfterOn : Nat := 4
def StretchCoarse : Nat := 5
def StretchFine : Nat := 6
def Result : Nat := 7

end Phase

/-- Structure `RtcState` (source lines 19-37): the RTC_NOINIT persistent record.
All fields are `uint32_t` in the source. -/
structure RtcState where
  magic : Nat
  bootCount : Nat
  phase : Nat
  coarseIntervalMs : Nat
  coarseLastGoodMs : Nat
  coarseFailMs : Nat
  fineIntervalMs : Nat
  fineLastGoodMs : Nat
  fineFailMs : Nat
  finalLastGoodMs : Nat
  finalFailMs : Nat
deriving DecidableEq, Repr

/-- Function `rtcInitIfNeeded()` (source lines 74-92): overwrite the record with
defaults when the magic marker does not match, otherwise do nothing. -/
def rtcInitIfNeeded (s : RtcState) : RtcState :=
  if s.magic ≠ kRtcMagic then
    { magic := kRtcMagic
      bootCount := 0
      phase := Phase.FeedWarmup
      coarseIntervalMs := kStretchStartMs
      coarseLastGoodMs := 0
      coarseFailMs := 0
      fineIntervalMs := 0
      fineLastGoodMs := 0
      fineFailMs := 0
      finalLastGoodMs := 0
      finalFailMs := 0 }
  else s

/-- Function `advancePhaseOnWdtReset()` (source lines 184-230): on a task-watchdog
reset, advance the stored phase; on any other reset cause do nothing.
The reset cause read by `esp_reset_reason()` is passed explicitly. -/
def advancePhaseOnWdtReset (reason : EspResetReason) (s : RtcState) : RtcState :=
  if reason ≠ EspResetReason.taskWdt then s
  else if s.phase = Phase.ResetTest1 then
    { s with phase := Phase.ResetTest2 }
  else if s.phase = Phase.ResetTest2 then
    { s with phase := Phase.Disabled30s }
  else if s.phase = Phase.StretchCoarse then
    -- Coarse failure occurred at coarseIntervalMs.
    let coarseLastGood :=
      if s.coarseIntervalMs > kCoarseStepMs then s.coarseIntervalMs - kCoarseStepMs else 0
    { s with
      coarseFailMs := s.coarseIntervalMs
      coarseLastGoodMs := coarseLastGood
      -- Prepare fine search starting from last good (coarse).
      fineIntervalMs := coarseLastGood
      fineLastGoodMs := 0
      fineFailMs := 0
      phase := Phase.StretchFine }
  else if s.phase = Phase.StretchFine then
    -- Fine failure occurred at fineIntervalMs.
    let fineLastGood :=
      if s.fineIntervalMs > kFineStepMs then s.fineIntervalMs - kFineStepMs else 0
    { s with
      fineFailMs := s.fineIntervalMs
      fineLastGoodMs := fineLastGood
      -- Final results
      finalLastGoodMs := fineLastGood
      finalFailMs := s.fineIntervalMs
      phase := Phase.Result }
  else s

/-- The persistent-state part of `setup()` (source lines 307-323):
`rtcInitIfNeeded(); gRtc.bootCount++; advancePhaseOnWdtReset();`.
`bootCount++` is `uint32_t` arithmetic, hence the wrap. -/
def setupRtc (reason : EspResetReason) (s : RtcState) : RtcState :=
  let s1 := rtcInitIfNeeded s
  let s2 := { s1 with bootCount := wrap32 (s1.bootCount + 1) }
  advancePhaseOnWdtReset reason s2

/-- A sequence of boots: each element of `rs` is the reset cause observed by
`setup()` at the corresponding boot. -/
def runBoots (s : RtcState) (rs : List EspResetReason) : RtcState :=
  rs.foldl (fun acc r => setupRtc r acc) s

/-- Full program state: the persistent record plus the transient RAM state
the claims mention: `gLastFeedMs`/`gFeedCount` (source lines 43-44), the
static locals of `stretchStepLogic` (`intervalStartMs`, `lastPrintedInterval`,
`lastHeartbeatMs`, source lines 275-297), and the static `done` flag of the
`Result` case (source line 400).  Statics start at zero / false on each boot
because a watchdog reset restarts the whole program. -/
structure SysState where
  rtc : RtcState
  gLastFeedMs : Nat
  gFeedCount : Nat
  intervalStartMs : Nat
  lastPrintedInterval : Nat
  lastHeartbeatMs : Nat
  done : Bool
deriving DecidableEq, Repr

/-- Function `wdtFeedIfDue(intervalMs)` (source lines 157-176).  Here `now` is the value
`millis()` returns; `feedOk` is whether `esp_task_wdt_reset()` returned
`ESP_OK`.  The due test `now - gLastFeedMs < intervalMs` is `uint32_t`
subtraction.  On a failed feed the counter is untouched but the timestamp
is still rewritten. -/
def wdtFeedIfDue (now : Nat) (feedOk : Bool) (intervalMs : Nat) (s : SysState) : SysState :=
  if sub32 now s.gLastFeedMs < intervalMs then s
  else
    { s with
      gFeedCount := if feedOk then wrap32 (s.gFeedCount + 1) else s.gFeedCount
      gLastFeedMs := now }

/-- Function `resetCountersForPhase()` (source lines 178-182): zero the feed counter
and restart the feed timer from the current `millis()` value. -/
def resetCountersForPhase (now : Nat) (s : SysState) : SysState :=
  { s with gFeedCount := 0, gLastFeedMs := now }

/-- Function `stretchStepLogic(intervalMs, stepMs, label)` (source lines 270-305).
`intervalMs` is passed by reference in the source; here the updated value is
returned alongside the updated state.  The hold timer uses the sentinel
`intervalStartMs == 0` for "not started"; after holding the interval for
`kStretchHoldMs` the interval grows by `stepMs` (uint32 addition, no cap)
and the hold timer restarts. -/
def stretchStepLogic (now : Nat) (feedOk : Bool) (intervalMs stepMs : Nat)
    (s : SysState) : Nat × SysState :=
  let s1 := wdtFeedIfDue now feedOk intervalMs s
  -- `if (intervalStartMs == 0) intervalStartMs = millis();`
  let start1 := if s1.intervalStartMs = 0 then now else s1.intervalStartMs
  -- `if (intervalMs != lastPrintedInterval) { ...; lastPrintedInterval = intervalMs; }`
  let printed1 := if intervalMs ≠ s1.lastPrintedInterval then intervalMs
    else s1.lastPrintedInterval
  -- `heldMs = millis() - intervalStartMs; if (heldMs >= kStretchHoldMs) { ... }`
  let hold := kStretchHoldMs ≤ sub32 now start1
  let newInterval := if hold then wrap32 (intervalMs + stepMs) else intervalMs
  let start2 := if hold then 0 else start1
  -- `if (millis() - lastHeartbeatMs >= kStatusPrintIntervalMs) lastHeartbeatMs = millis();`
  let heartbeat1 :=
    if kStatusPrintIntervalMs ≤ sub32 now s1.lastHeartbeatMs then now else s1.lastHeartbeatMs
  (newInterval,
    { s1 with
      intervalStartMs := start2
      lastPrintedInterval := printed1
      lastHeartbeatMs := heartbeat1 })

/-- One iteration of `loop()` (source lines 325-430), dispatching on the raw
stored phase exactly as the `switch` does (cases `0`-`7`, `default` for any
other value).  `ResetTest1`/`ResetTest2` hang forever without touching state
(`hangUntilReset`); `Disabled30s` runs the 30 s disable window (pure delay
and printing) and then moves to `FeedAfterOn`; `Result` prints once and sets
its `done` flag.  `millis()` is sampled once per iteration as `now`. -/
def loop (now : Nat) (feedOk : Bool) (s : SysState) : SysState :=
  match s.rtc.phase with
  | 0 =>
    -- Phase::FeedWarmup
    let s1 := wdtFeedIfDue now feedOk kFeedIntervalMs s
    if kMinFeedCount ≤ s1.gFeedCount then
      resetCountersForPhase now
        { s1 with rtc := { s1.rtc with phase := Phase.ResetTest1 } }
    else s1
  | 1 => s
  | 2 => s
  | 3 =>
    -- Phase::Disabled30s: runDisableWindow(), then transition.
    resetCountersForPhase now
      { s with rtc := { s.rtc with phase := Phase.FeedAfterOn } }
  | 4 =>
    -- Phase::FeedAfterOn
    let s1 := wdtFeedIfDue now feedOk kFeedIntervalMs s
    if kMinFeedCount ≤ s1.gFeedCount then
      resetCountersForPhase now
        { s1 with rtc :=
          { s1.rtc with
            phase := Phase.StretchCoarse
            coarseIntervalMs := kStretchStartMs
            coarseLastGoodMs := 0
            coarseFailMs := 0
            fineIntervalMs := 0
            fineLastGoodMs := 0
            fineFailMs := 0
            finalLastGoodMs := 0
            finalFailMs := 0 } }
    else s1
  | 5 =>
    -- Phase::StretchCoarse
    let step := stretchStepLogic now feedOk s.rtc.coarseIntervalMs kCoarseStepMs s
    { step.2 with rtc := { step.2.rtc with coarseIntervalMs := step.1 } }
  | 6 =>
    -- Phase::StretchFine
    let s0 :=
      if s.rtc.fineIntervalMs = 0 then
        { s with rtc := { s.rtc with fineIntervalMs := s.rtc.coarseLastGoodMs } }
      else s
    let step := stretchStepLogic now feedOk s0.rtc.fineIntervalMs kFineStepMs s0
    { step.2 with rtc := { step.2.rtc with fineIntervalMs := step.1 } }
  | 7 =>
    -- Phase::Result: print once and idle.
    { s with done := true }
  | _ + 8 =>
    -- default: unrecognized phase value, treated as corruption.
    resetCountersForPhase now
      { s with rtc := { s.rtc with phase := Phase.FeedWarmup } }

/-- Full `setup()` (source lines 307-323) as seen at the start of a boot:
the program restarts, so every transient field begins at its C static
initializer (zero / false); then the persistent record is initialized,
`bootCount` bumped, the phase advanced on a task-watchdog reset cause, and
the per-phase counters reset at the current `millis()` value. -/
def setup (reason : EspResetReason) (now : Nat) (persisted : RtcState) : SysState :=
  { rtc := setupRtc reason persisted
    gLastFeedMs := now
    gFeedCount := 0
    intervalStartMs := 0
    lastPrintedInterval := 0
    lastHeartbeatMs := 0
    done := false }

/-- A sample valid record used to instantiate witnesses at concrete inputs. -/
def sampleRtc : RtcState :=
  { magic := kRtcMagic
    bootCount := 3
    phase := Phase.FeedWarmup
    coarseIntervalMs := kStretchStartMs
    coarseLastGoodMs := 0
    coarseFailMs := 0
    fineIntervalMs := 0
    fineLastGoodMs := 0
    fineFailMs := 0
    finalLastGoodMs := 0
    finalFailMs := 0 }

-- ------------------------------------------------------------------
-- Helper lemmas
-- ------------------------------------------------------------------

/-- The guarded `uint32` subtraction `x > k ? x - k : 0` used in
`advancePhaseOnWdtReset` computes the integer `max 0 (x - k)`. -/
lemma guardSub_cast (x k : Nat) :
    (((if k < x then x - k else 0 : Nat)) : Int) = max 0 ((x : Int) - (k : Int)) := by
  rcases max_cases (0 : Int) ((x : Int) - (k : Int)) with ⟨h1, h2⟩ | ⟨h1, h2⟩ <;>
    rw [h1] <;> split_ifs with h <;> omega

/-- Advancing the phase never touches the magic marker. -/
lemma advancePhaseOnWdtReset_magic (r : EspResetReason) (s : RtcState) :
    (advancePhaseOnWdtReset r s).magic = s.magic := by
  unfold advancePhaseOnWdtReset
  split_ifs <;> rfl

/-- Advancing the phase never touches the boot counter. -/
lemma advancePhaseOnWdtReset_bootCount (r : EspResetReason) (s : RtcState) :
    (advancePhaseOnWdtReset r s).bootCount = s.bootCount := by
  unfold advancePhaseOnWdtReset
  split_ifs <;> rfl

/-- The function `advancePhaseOnWdtReset` is the identity on a non-task-watchdog cause,
and also on a task-watchdog cause when the stored phase is none of the four
phases it handles. -/
lemma advancePhaseOnWdtReset_eq_self (r : EspResetReason) (s : RtcState)
    (h : r ≠ EspResetReason.taskWdt ∨
      (s.phase ≠ Phase.ResetTest1 ∧ s.phase ≠ Phase.ResetTest2 ∧
       s.phase ≠ Phase.StretchCoarse ∧ s.phase ≠ Phase.StretchFine)) :
    advancePhaseOnWdtReset r s = s := by
  unfold advancePhaseOnWdtReset
  rcases h with h | ⟨h1, h2, h3, h4⟩ <;> split_ifs <;> simp_all

/-- After any boot, the magic marker is valid. -/
lemma setupRtc_magic (r : EspResetReason) (s : RtcState) :
    (setupRtc r s).magic = kRtcMagic := by
  unfold setupRtc
  rw [advancePhaseOnWdtReset_magic]
  by_cases h : s.magic = kRtcMagic <;> simp [rtcInitIfNeeded, h]

/-- Each boot bumps the boot counter exactly once (uint32 increment). -/
lemma setupRtc_bootCount (r : EspResetReason) (s : RtcState) :
    (setupRtc r s).bootCount = wrap32 ((rtcInitIfNeeded s).bootCount + 1) := by
  unfold setupRtc
  rw [advancePhaseOnWdtReset_bootCount]

-- ------------------------------------------------------------------
-- C1
-- ------------------------------------------------------------------

/-- C1: on a task-watchdog reset in phase `StretchCoarse`,
`advancePhaseOnWdtReset` records `coarseFailMs = X` (the current coarse
interval), `coarseLastGoodMs = max 0 (X - 500)`, seeds the fine search with
`fineIntervalMs = coarseLastGoodMs` and zeroed `fineLastGoodMs`/`fineFailMs`,
and moves the phase to `StretchFine`, for every value of `X`. -/
theorem C1_coarse_to_fine_handoff (s : RtcState) (X : Nat)
    (hp : s.phase = Phase.StretchCoarse) (hX : s.coarseIntervalMs = X) :
    (advancePhaseOnWdtReset EspResetReason.taskWdt s).coarseFailMs = X
    ∧ ((advancePhaseOnWdtReset EspResetReason.taskWdt s).coarseLastGoodMs : Int) =
        max 0 ((X : Int) - 500)
    ∧ (advancePhaseOnWdtReset EspResetReason.taskWdt s).fineIntervalMs =
        (advancePhaseOnWdtReset EspResetReason.taskWdt s).coarseLastGoodMs
    ∧ (advancePhaseOnWdtReset EspResetReason.taskWdt s).fineLastGoodMs = 0
    ∧ (advancePhaseOnWdtReset EspResetReason.taskWdt s).fineFailMs = 0
    ∧ (advancePhaseOnWdtReset EspResetReason.taskWdt s).phase = Phase.StretchFine := by
  subst hX
  have hcast := guardSub_cast s.coarseIntervalMs kCoarseStepMs
  unfold advancePhaseOnWdtReset
  simp only [hp, Phase.StretchCoarse, Phase.ResetTest1, Phase.ResetTest2, Phase.StretchFine]
  norm_num [kCoarseStepMs] at hcast ⊢
  exact hcast

/-- Witness for C1 at `X = 3500`. -/
theorem C1_coarse_to_fine_handoff_witness :
    (advancePhaseOnWdtReset EspResetReason.taskWdt
        { sampleRtc with phase := Phase.StretchCoarse, coarseIntervalMs := 3500 }).coarseFailMs
      = 3500
    ∧ ((advancePhaseOnWdtReset EspResetReason.taskWdt
        { sampleRtc with phase := Phase.StretchCoarse, coarseIntervalMs := 3500 }).coarseLastGoodMs
        : Int) = max 0 ((3500 : Int) - 500)
    ∧ (advancePhaseOnWdtReset EspResetReason.taskWdt
        { sampleRtc with phase := Phase.StretchCoarse, coarseIntervalMs := 3500 }).fineIntervalMs
      = (advancePhaseOnWdtReset EspResetReason.taskWdt
        { sampleRtc with phase := Phase.StretchCoarse, coarseIntervalMs := 3500 }).coarseLastGoodMs
    ∧ (advancePhaseOnWdtReset EspResetReason.taskWdt
        { sampleRtc with phase := Phase.StretchCoarse, coarseIntervalMs := 3500 }).fineLastGoodMs = 0
    ∧ (advancePhaseOnWdtReset EspResetReason.taskWdt
        { sampleRtc with phase := Phase.StretchCoarse, coarseIntervalMs := 3500 }).fineFailMs = 0
    ∧ (advancePhaseOnWdtReset EspResetReason.taskWdt
        { sampleRtc with phase := Phase.StretchCoarse, coarseIntervalMs := 3500 }).phase
      = Phase.StretchFine :=
  C1_coarse_to_fine_handoff _ 3500 (by decide) (by decide)

-- ------------------------------------------------------------------
-- C2
-- ------------------------------------------------------------------

/-- C2: on a task-watchdog reset in phase `StretchFine`,
`advancePhaseOnWdtReset` records `fineFailMs = Y` (the current fine
interval), `fineLastGoodMs = max 0 (Y - 100)`, copies the pair into
`finalLastGoodMs`/`finalFailMs`, and moves the phase to `Result`, for every
value of `Y`. -/
theorem C2_fine_to_result_handoff (s : RtcState) (Y : Nat)
    (hp : s.phase = Phase.StretchFine) (hY : s.fineIntervalMs = Y) :
    (advancePhaseOnWdtReset EspResetReason.taskWdt s).fineFailMs = Y
    ∧ ((advancePhaseOnWdtReset EspResetReason.taskWdt s).fineLastGoodMs : Int) =
        max 0 ((Y : Int) - 100)
    ∧ (advancePhaseOnWdtReset EspResetReason.taskWdt s).finalLastGoodMs =
        (advancePhaseOnWdtReset EspResetReason.taskWdt s).fineLastGoodMs
    ∧ (advancePhaseOnWdtReset EspResetReason.taskWdt s).finalFailMs =
        (advancePhaseOnWdtReset EspResetReason.taskWdt s).fineFailMs
    ∧ (advancePhaseOnWdtReset EspResetReason.taskWdt s).phase = Phase.Result := by
  subst hY
  have hcast := guardSub_cast s.fineIntervalMs kFineStepMs
  unfold advancePhaseOnWdtReset
  simp only [hp, Phase.StretchFine, Phase.ResetTest1, Phase.ResetTest2, Phase.StretchCoarse,
    Phase.Result]
  norm_num [kFineStepMs] at hcast ⊢
  exact hcast

/-- Witness for C2 at `Y = 3100`. -/
theorem C2_fine_to_result_handoff_witness :
    (advancePhaseOnWdtReset EspResetReason.taskWdt
        { sampleRtc with phase := Phase.StretchFine, fineIntervalMs := 3100 }).fineFailMs = 3100
    ∧ ((advancePhaseOnWdtReset EspResetReason.taskWdt
        { sampleRtc with phase := Phase.StretchFine, fineIntervalMs := 3100 }).fineLastGoodMs
        : Int) = max 0 ((3100 : Int) - 100)
    ∧ (advancePhaseOnWdtReset EspResetReason.taskWdt
        { sampleRtc with phase := Phase.StretchFine, fineIntervalMs := 3100 }).finalLastGoodMs
      = (advancePhaseOnWdtReset EspResetReason.taskWdt
        { sampleRtc with phase := Phase.StretchFine, fineIntervalMs := 3100 }).fineLastGoodMs
    ∧ (advancePhaseOnWdtReset EspResetReason.taskWdt
        { sampleRtc with phase := Phase.StretchFine, fineIntervalMs := 3100 }).finalFailMs
      = (advancePhaseOnWdtReset EspResetReason.taskWdt
        { sampleRtc with phase := Phase.StretchFine, fineIntervalMs := 3100 }).fineFailMs
    ∧ (advancePhaseOnWdtReset EspResetReason.taskWdt
        { sampleRtc with phase := Phase.StretchFine, fineIntervalMs := 3100 }).phase
      = Phase.Result :=
  C2_fine_to_result_handoff _ 3100 (by decide) (by decide)

-- ------------------------------------------------------------------
-- C3
-- ------------------------------------------------------------------

/-- C3: `advancePhaseOnWdtReset` is a no-op for every reset cause other than
the task watchdog, in every phase; and even on a task-watchdog cause it
leaves the record unchanged in every phase other than `ResetTest1`,
`ResetTest2`, `StretchCoarse` and `StretchFine`. -/
theorem C3_frame_no_advance (s : RtcState) (reason : EspResetReason) :
    (reason ≠ EspResetReason.taskWdt → advancePhaseOnWdtReset reason s = s)
    ∧ (s.phase ≠ Phase.ResetTest1 → s.phase ≠ Phase.ResetTest2 →
        s.phase ≠ Phase.StretchCoarse → s.phase ≠ Phase.StretchFine →
        advancePhaseOnWdtReset EspResetReason.taskWdt s = s) := by
  constructor
  · intro h
    exact advancePhaseOnWdtReset_eq_self reason s (Or.inl h)
  · intro h1 h2 h3 h4
    exact advancePhaseOnWdtReset_eq_self _ s (Or.inr ⟨h1, h2, h3, h4⟩)

/-- Witness for C3: a software reset in `StretchCoarse` and a task-watchdog
reset in `FeedWarmup` both leave the record untouched. -/
theorem C3_frame_no_advance_witness :
    (advancePhaseOnWdtReset EspResetReason.sw
        { sampleRtc with phase := Phase.StretchCoarse }
      = { sampleRtc with phase := Phase.StretchCoarse })
    ∧ advancePhaseOnWdtReset EspResetReason.taskWdt sampleRtc = sampleRtc :=
  ⟨(C3_frame_no_advance { sampleRtc with phase := Phase.StretchCoarse }
      EspResetReason.sw).1 (by decide),
   (C3_frame_no_advance sampleRtc EspResetReason.taskWdt).2
      (by decide) (by decide) (by decide) (by decide)⟩

-- ------------------------------------------------------------------
-- C4
-- ------------------------------------------------------------------

/-- C4: `rtcInitIfNeeded` is idempotent: with a valid magic marker it
changes nothing (in particular it does not re-zero the search bookkeeping),
and running it twice always equals running it once. -/
theorem C4_init_idempotent (s : RtcState) :
    (s.magic = kRtcMagic → rtcInitIfNeeded s = s)
    ∧ rtcInitIfNeeded (rtcInitIfNeeded s) = rtcInitIfNeeded s := by
  constructor
  · intro h
    simp [rtcInitIfNeeded, h]
  · by_cases h : s.magic = kRtcMagic <;> simp [rtcInitIfNeeded, h]

/-- Witness for C4 on a valid record with nonzero search data. -/
theorem C4_init_idempotent_witness :
    (rtcInitIfNeeded { sampleRtc with coarseLastGoodMs := 2500, coarseFailMs := 3000 }
      = { sampleRtc with coarseLastGoodMs := 2500, coarseFailMs := 3000 })
    ∧ rtcInitIfNeeded (rtcInitIfNeeded
        { sampleRtc with coarseLastGoodMs := 2500, coarseFailMs := 3000 })
      = rtcInitIfNeeded { sampleRtc with coarseLastGoodMs := 2500, coarseFailMs := 3000 } :=
  ⟨(C4_init_idempotent _).1 (by decide),
   (C4_init_idempotent { sampleRtc with coarseLastGoodMs := 2500, coarseFailMs := 3000 }).2⟩

-- ------------------------------------------------------------------
-- C5
-- ------------------------------------------------------------------

/-- With a valid marker and an in-range counter, a run of boots adds one to
the counter per boot, modulo 2^32. -/
lemma runBoots_bootCount (rs : List EspResetReason) :
    ∀ s : RtcState, s.magic = kRtcMagic → s.bootCount < u32 →
      (runBoots s rs).bootCount = (s.bootCount + rs.length) % u32 := by
  induction rs with
  | nil =>
    intro s hm hb
    simp [runBoots, Nat.mod_eq_of_lt hb]
  | cons r rs ih =>
    intro s hm hb
    have hstep : (setupRtc r s).bootCount = (s.bootCount + 1) % u32 := by
      rw [setupRtc_bootCount]
      simp [rtcInitIfNeeded, hm, wrap32]
    have hmagic := setupRtc_magic r s
    have hlt : (setupRtc r s).bootCount < u32 := by
      rw [hstep]
      exact Nat.mod_lt _ (by norm_num [u32])
    have := ih (setupRtc r s) hmagic hlt
    calc (runBoots s (r :: rs)).bootCount
        = (runBoots (setupRtc r s) rs).bootCount := rfl
      _ = ((setupRtc r s).bootCount + rs.length) % u32 := this
      _ = ((s.bootCount + 1) % u32 + rs.length) % u32 := by rw [hstep]
      _ = (s.bootCount + 1 + rs.length) % u32 := Nat.mod_add_mod _ _ _
      _ = (s.bootCount + (rs.length + 1)) % u32 := by ring_nf

/-- Starting from an invalid-marker record, `k` boots leave `bootCount = k % 2^32`
(the first boot zeroes the counter before bumping it). -/
lemma runBoots_fresh (s0 : RtcState) (r : EspResetReason) (rs : List EspResetReason)
    (h : s0.magic ≠ kRtcMagic) :
    (runBoots s0 (r :: rs)).bootCount = (rs.length + 1) % u32 := by
  have h1 : (setupRtc r s0).magic = kRtcMagic := setupRtc_magic r s0
  have h2 : (setupRtc r s0).bootCount = 1 := by
    rw [setupRtc_bootCount]
    simp [rtcInitIfNeeded, h, wrap32, u32]
  have h3 : (setupRtc r s0).bootCount < u32 := by rw [h2]; norm_num [u32]
  calc (runBoots s0 (r :: rs)).bootCount
      = (runBoots (setupRtc r s0) rs).bootCount := rfl
    _ = ((setupRtc r s0).bootCount + rs.length) % u32 :=
        runBoots_bootCount rs _ h1 h3
    _ = (rs.length + 1) % u32 := by rw [h2]; ring_nf

/-- C5 (amended): each boot bumps `bootCount` exactly once after validity is
ensured — as uint32 arithmetic, i.e. modulo 2^32 — so starting from an
invalid-marker record, after `k ≥ 1` consecutive boots (any reset causes)
`bootCount = k % 2^32`; this equals `k` while `k < 2^32` but wraps to 0 at
`k = 2^32`, so the unqualified "bootCount equals k" of the claim fails there. -/
theorem C5_boot_counter (s0 s : RtcState) (r r2 : EspResetReason)
    (rs : List EspResetReason) (h : s0.magic ≠ kRtcMagic) :
    (runBoots s0 (r :: rs)).bootCount = (rs.length + 1) % u32
    ∧ (setupRtc r2 s).bootCount = wrap32 ((rtcInitIfNeeded s).bootCount + 1) :=
  ⟨runBoots_fresh s0 r rs h, setupRtc_bootCount r2 s⟩

/-- A concrete fresh (invalid-marker) record. -/
def c5FreshState : RtcState :=
  { magic := 0
    bootCount := 913
    phase := 3
    coarseIntervalMs := 77
    coarseLastGoodMs := 1
    coarseFailMs := 2
    fineIntervalMs := 3
    fineLastGoodMs := 4
    fineFailMs := 5
    finalLastGoodMs := 6
    finalFailMs := 7 }

/-- Counterexample to C5 as stated: after `k = 2^32` consecutive boots from a
fresh record, `bootCount` has wrapped to `0`, not `k`. -/
theorem C5_boot_counter_counterexample :
    (runBoots c5FreshState
        (List.replicate u32 EspResetReason.poweron)).bootCount = 0
    ∧ (List.replicate u32 EspResetReason.poweron).length = u32
    ∧ (0 : Nat) ≠ u32 := by
  have hrep : List.replicate u32 EspResetReason.poweron =
      EspResetReason.poweron :: List.replicate (u32 - 1) EspResetReason.poweron := by
    have h1 : u32 = (u32 - 1) + 1 := by norm_num [u32]
    conv_lhs => rw [h1, List.replicate_succ]
  refine ⟨?_, by simp, by norm_num [u32]⟩
  rw [hrep, runBoots_fresh c5FreshState _ _ (by decide)]
  rw [List.length_replicate]
  norm_num [u32]

/-- Witness for the amended C5 theorem at one boot from a fresh record. -/
theorem C5_boot_counter_witness :
    (runBoots c5FreshState [EspResetReason.poweron]).bootCount =
      (([] : List EspResetReason).length + 1) % u32
    ∧ (setupRtc EspResetReason.sw c5FreshState).bootCount =
      wrap32 ((rtcInitIfNeeded c5FreshState).bootCount + 1) :=
  C5_boot_counter c5FreshState c5FreshState EspResetReason.poweron EspResetReason.sw []
    (by decide)

-- ------------------------------------------------------------------
-- C6
-- ------------------------------------------------------------------

/-- C6: in `FeedWarmup`, one loop iteration moves to `ResetTest1` exactly
when the post-feed counter has reached `kMinFeedCount = 6` — never at a
smaller count — and for every wall-clock time `now`; the counter grows by at
most one per iteration, so the transition happens at the iteration where the
counter first reaches 6. -/
theorem C6_warmup_exit_threshold (s : SysState) (now : Nat) (feedOk : Bool)
    (hp : s.rtc.phase = Phase.FeedWarmup) :
    ((loop now feedOk s).rtc.phase = Phase.ResetTest1 ↔
      kMinFeedCount ≤ (wdtFeedIfDue now feedOk kFeedIntervalMs s).gFeedCount)
    ∧ ((loop now feedOk s).rtc.phase = Phase.ResetTest1 ∨
       (loop now feedOk s).rtc.phase = Phase.FeedWarmup)
    ∧ ((wdtFeedIfDue now feedOk kFeedIntervalMs s).gFeedCount = s.gFeedCount ∨
       (wdtFeedIfDue now feedOk kFeedIntervalMs s).gFeedCount = wrap32 (s.gFeedCount + 1)) := by
  obtain ⟨rtc, lf, fc, ist, lpi, lhb, dn⟩ := s
  obtain ⟨mg, bc, ph, ci, clg, cf, fi, flg, ff, fl, ffl⟩ := rtc
  simp only [Phase.FeedWarmup] at hp
  subst hp
  by_cases hdue : sub32 now lf < kFeedIntervalMs
  · by_cases hc : kMinFeedCount ≤ fc <;>
      simp [loop, wdtFeedIfDue, resetCountersForPhase, hdue, hc,
        Phase.ResetTest1, Phase.FeedWarmup]
  · cases feedOk <;>
      [skip; by_cases hc : kMinFeedCount ≤ wrap32 (fc + 1)] <;>
      [by_cases hc : kMinFeedCount ≤ fc; skip; skip] <;>
      simp [loop, wdtFeedIfDue, resetCountersForPhase, hdue, hc,
        Phase.ResetTest1, Phase.FeedWarmup]

/-- A concrete warmup state: five successful feeds so far, sixth feed due. -/
def c6State : SysState :=
  { rtc := sampleRtc
    gLastFeedMs := 0
    gFeedCount := 5
    intervalStartMs := 0
    lastPrintedInterval := 0
    lastHeartbeatMs := 0
    done := false }

/-- Witness for C6: with five feeds done and a sixth due and successful at
`now = 1000`, the iteration transitions to `ResetTest1`. -/
theorem C6_warmup_exit_threshold_witness :
    ((loop 1000 true c6State).rtc.phase = Phase.ResetTest1 ↔
      kMinFeedCount ≤ (wdtFeedIfDue 1000 true kFeedIntervalMs c6State).gFeedCount)
    ∧ ((loop 1000 true c6State).rtc.phase = Phase.ResetTest1 ∨
       (loop 1000 true c6State).rtc.phase = Phase.FeedWarmup)
    ∧ ((wdtFeedIfDue 1000 true kFeedIntervalMs c6State).gFeedCount = c6State.gFeedCount ∨
       (wdtFeedIfDue 1000 true kFeedIntervalMs c6State).gFeedCount =
         wrap32 (c6State.gFeedCount + 1)) :=
  C6_warmup_exit_threshold c6State 1000 true (by decide)

-- ------------------------------------------------------------------
-- C7
-- ------------------------------------------------------------------

/-- Subtracting a uint32 value from itself gives zero. -/
lemma sub32_self (a : Nat) : sub32 a a = 0 := by
  unfold sub32 u32
  omega

/-- The returned interval of `stretchStepLogic`: it grows by `stepMs`
(uint32 addition) exactly when the hold timer was running and has reached
`kStretchHoldMs`, and is unchanged otherwise (in particular when the hold
timer (re)starts this iteration). -/
lemma wdtFeedIfDue_intervalStartMs (now : Nat) (feedOk : Bool) (intervalMs : Nat)
    (s : SysState) :
    (wdtFeedIfDue now feedOk intervalMs s).intervalStartMs = s.intervalStartMs := by
  unfold wdtFeedIfDue
  split_ifs <;> rfl

lemma wdtFeedIfDue_rtc (now : Nat) (feedOk : Bool) (intervalMs : Nat) (s : SysState) :
    (wdtFeedIfDue now feedOk intervalMs s).rtc = s.rtc := by
  unfold wdtFeedIfDue
  split_ifs <;> rfl

lemma stretchStepLogic_fst (now : Nat) (feedOk : Bool) (intervalMs stepMs : Nat)
    (s : SysState) :
    (stretchStepLogic now feedOk intervalMs stepMs s).1 =
      if s.intervalStartMs ≠ 0 ∧ kStretchHoldMs ≤ sub32 now s.intervalStartMs then
        wrap32 (intervalMs + stepMs)
      else intervalMs := by
  simp only [stretchStepLogic, wdtFeedIfDue_intervalStartMs]
  by_cases h0 : s.intervalStartMs = 0
  · simp [h0, sub32_self, kStretchHoldMs]
  · simp [h0]

/-- The stretch step never touches the persistent record. -/
lemma stretchStepLogic_rtc (now : Nat) (feedOk : Bool) (intervalMs stepMs : Nat)
    (s : SysState) :
    (stretchStepLogic now feedOk intervalMs stepMs s).2.rtc = s.rtc := by
  simp only [stretchStepLogic]
  rw [wdtFeedIfDue_rtc]

/-- In `StretchCoarse` one loop iteration only rewrites `coarseIntervalMs`
(with the value `stretchStepLogic` returns) inside the persistent record. -/
lemma loop_stretchCoarse_rtc (s : SysState) (now : Nat) (feedOk : Bool)
    (hp : s.rtc.phase = Phase.StretchCoarse) :
    (loop now feedOk s).rtc =
      { s.rtc with coarseIntervalMs :=
          (stretchStepLogic now feedOk s.rtc.coarseIntervalMs kCoarseStepMs s).1 } := by
  obtain ⟨rtc, lf, fc, ist, lpi, lhb, dn⟩ := s
  obtain ⟨mg, bc, ph, ci, clg, cf, fi, flg, ff, fl, ffl⟩ := rtc
  simp only [Phase.StretchCoarse] at hp
  subst hp
  simp only [loop]
  rw [stretchStepLogic_rtc]

/-- C7 (amended): in `StretchCoarse` with no forced reset, a loop iteration
keeps the phase, leaves `coarseIntervalMs` unchanged while the current
interval has been held for less than `kStretchHoldMs = 8000` ms (or while the
hold timer is only now starting), adds exactly `kCoarseStepMs = 500` — as
uint32 addition, modulo 2^32 — once the interval has been held 8000 ms, and
hence never decreases the interval as long as the addition does not overflow
uint32. -/
theorem C7_stretch_monotonic_growth (s : SysState) (now : Nat) (feedOk : Bool)
    (hp : s.rtc.phase = Phase.StretchCoarse) :
    (loop now feedOk s).rtc.phase = Phase.StretchCoarse
    ∧ (s.intervalStartMs ≠ 0 → kStretchHoldMs ≤ sub32 now s.intervalStartMs →
        (loop now feedOk s).rtc.coarseIntervalMs =
          wrap32 (s.rtc.coarseIntervalMs + kCoarseStepMs))
    ∧ (s.intervalStartMs = 0 ∨ sub32 now s.intervalStartMs < kStretchHoldMs →
        (loop now feedOk s).rtc.coarseIntervalMs = s.rtc.coarseIntervalMs)
    ∧ (s.rtc.coarseIntervalMs + kCoarseStepMs < u32 →
        s.rtc.coarseIntervalMs ≤ (loop now feedOk s).rtc.coarseIntervalMs) := by
  have hrtc := loop_stretchCoarse_rtc s now feedOk hp
  have hfst := stretchStepLogic_fst now feedOk s.rtc.coarseIntervalMs kCoarseStepMs s
  rw [hrtc]
  refine ⟨by simpa using hp, ?_, ?_, ?_⟩
  · intro h1 h2
    simp only [hfst]
    simp [h1, h2]
  · intro h
    simp only [hfst]
    rcases h with h | h
    · simp [h]
    · simp [Nat.not_le.mpr h]
  · intro hov
    simp only [hfst]
    split_ifs with h
    · rw [wrap32, Nat.mod_eq_of_lt hov]
      omega
    · exact le_refl _

/-- A reachable `StretchCoarse` configuration near the top of the uint32
range: `coarseIntervalMs = 1000 + 500 * 8589932`, one hold period just
elapsed. -/
def c7State : SysState :=
  { rtc := { sampleRtc with phase := Phase.StretchCoarse, coarseIntervalMs := 4294967000 }
    gLastFeedMs := 0
    gFeedCount := 0
    intervalStartMs := 1
    lastPrintedInterval := 4294967000
    lastHeartbeatMs := 1
    done := false }

/-- Counterexample to C7 as stated: with no forced reset, one `StretchCoarse`
iteration can decrease `coarseIntervalMs` — the uint32 addition
`4294967000 + 500` wraps to `204`. -/
theorem C7_stretch_monotonic_growth_counterexample :
    c7State.rtc.phase = Phase.StretchCoarse
    ∧ (loop 8001 true c7State).rtc.coarseIntervalMs < c7State.rtc.coarseIntervalMs := by
  constructor
  · decide
  · decide

/-- Witness for the amended C7 theorem: a held interval of 1000 ms grows to
exactly 1500 after the 8000 ms hold, and never decreases. -/
theorem C7_stretch_monotonic_growth_witness :
    (loop 8001 true { c7State with rtc :=
        { c7State.rtc with coarseIntervalMs := 1000 } }).rtc.coarseIntervalMs =
      wrap32 (({ c7State with rtc :=
        { c7State.rtc with coarseIntervalMs := 1000 } } : SysState).rtc.coarseIntervalMs
          + kCoarseStepMs)
    ∧ (loop 8001 true { c7State with rtc :=
        { c7State.rtc with coarseIntervalMs := 1000 } }).rtc.phase = Phase.StretchCoarse
    ∧ ({ c7State with rtc :=
        { c7State.rtc with coarseIntervalMs := 1000 } } : SysState).rtc.coarseIntervalMs ≤
      (loop 8001 true { c7State with rtc :=
        { c7State.rtc with coarseIntervalMs := 1000 } }).rtc.coarseIntervalMs :=
  ⟨(C7_stretch_monotonic_growth _ 8001 true (by decide)).2.1 (by decide) (by decide),
   (C7_stretch_monotonic_growth _ 8001 true (by decide)).1,
   (C7_stretch_monotonic_growth _ 8001 true (by decide)).2.2.2 (by decide)⟩

-- ------------------------------------------------------------------
-- C8
-- ------------------------------------------------------------------

/-- C8: with a stored phase outside the valid enumerator range `0..7`, one
loop iteration falls into the `default` arm: the phase is forced back to
`FeedWarmup` and the transient feed counters are reset (`gFeedCount = 0`,
feed timer restarted at the current time). -/
theorem C8_corrupt_phase_recovery (s : SysState) (now : Nat) (feedOk : Bool)
    (hp : 8 ≤ s.rtc.phase) :
    (loop now feedOk s).rtc.phase = Phase.FeedWarmup
    ∧ (loop now feedOk s).gFeedCount = 0
    ∧ (loop now feedOk s).gLastFeedMs = now := by
  obtain ⟨rtc, lf, fc, ist, lpi, lhb, dn⟩ := s
  obtain ⟨mg, bc, ph, ci, clg, cf, fi, flg, ff, fl, ffl⟩ := rtc
  simp only at hp
  obtain ⟨n, rfl⟩ : ∃ n, ph = n + 8 := ⟨ph - 8, by omega⟩
  simp [loop, resetCountersForPhase]

/-- Witness for C8: phase value 42 is recovered to `FeedWarmup` with counters
reset. -/
theorem C8_corrupt_phase_recovery_witness :
    (loop 123 true { c6State with rtc := { sampleRtc with phase := 42 } }).rtc.phase
      = Phase.FeedWarmup
    ∧ (loop 123 true { c6State with rtc := { sampleRtc with phase := 42 } }).gFeedCount = 0
    ∧ (loop 123 true { c6State with rtc := { sampleRtc with phase := 42 } }).gLastFeedMs = 123 :=
  C8_corrupt_phase_recovery { c6State with rtc := { sampleRtc with phase := 42 } } 123 true
    (by decide)

-- ------------------------------------------------------------------
-- C9
-- ------------------------------------------------------------------

/-- C9: across boots from a fresh (invalid-marker) record the observed phases
follow `FeedWarmup`, `ResetTest1`, `ResetTest2`, `Disabled30s`: boot 1 lands
in `FeedWarmup` whatever its reset cause; a task-watchdog boot that finds the
record in `ResetTest1` (the deliberate hang) moves it to `ResetTest2`
changing nothing else except the boot counter; and a task-watchdog boot that
finds it in `ResetTest2` moves it to `Disabled30s`. -/
theorem C9_reset_test_phase_sequence (s0 t u : RtcState) (r1 : EspResetReason)
    (h0 : s0.magic ≠ kRtcMagic)
    (htm : t.magic = kRtcMagic) (htp : t.phase = Phase.ResetTest1)
    (hum : u.magic = kRtcMagic) (hup : u.phase = Phase.ResetTest2) :
    (setupRtc r1 s0).phase = Phase.FeedWarmup
    ∧ setupRtc EspResetReason.taskWdt t =
        { t with bootCount := wrap32 (t.bootCount + 1), phase := Phase.ResetTest2 }
    ∧ (setupRtc EspResetReason.taskWdt u).phase = Phase.Disabled30s := by
  refine ⟨?_, ?_, ?_⟩
  · unfold setupRtc
    have hinit : rtcInitIfNeeded s0 =
        { magic := kRtcMagic, bootCount := 0, phase := Phase.FeedWarmup,
          coarseIntervalMs := kStretchStartMs, coarseLastGoodMs := 0, coarseFailMs := 0,
          fineIntervalMs := 0, fineLastGoodMs := 0, fineFailMs := 0,
          finalLastGoodMs := 0, finalFailMs := 0 } := by
      simp [rtcInitIfNeeded, h0]
    rw [hinit, advancePhaseOnWdtReset_eq_self]
    exact Or.inr (by norm_num [Phase.FeedWarmup, Phase.ResetTest1, Phase.ResetTest2,
      Phase.StretchCoarse, Phase.StretchFine])
  · unfold setupRtc
    have hinit : rtcInitIfNeeded t = t := by simp [rtcInitIfNeeded, htm]
    rw [hinit]
    unfold advancePhaseOnWdtReset
    simp [htp, Phase.ResetTest1]
  · unfold setupRtc
    have hinit : rtcInitIfNeeded u = u := by simp [rtcInitIfNeeded, hum]
    rw [hinit]
    unfold advancePhaseOnWdtReset
    simp [hup, Phase.ResetTest2, Phase.ResetTest1, Phase.Disabled30s]

/-- Witness for C9 on concrete records in `ResetTest1` / `ResetTest2`. -/
theorem C9_reset_test_phase_sequence_witness :
    (setupRtc EspResetReason.poweron c5FreshState).phase = Phase.FeedWarmup
    ∧ setupRtc EspResetReason.taskWdt { sampleRtc with phase := Phase.ResetTest1 } =
        { { sampleRtc with phase := Phase.ResetTest1 } with
            bootCount := wrap32 (({ sampleRtc with phase := Phase.ResetTest1 }
              : RtcState).bootCount + 1),
            phase := Phase.ResetTest2 }
    ∧ (setupRtc EspResetReason.taskWdt
        { sampleRtc with phase := Phase.ResetTest2 }).phase = Phase.Disabled30s :=
  C9_reset_test_phase_sequence c5FreshState
    { sampleRtc with phase := Phase.ResetTest1 }
    { sampleRtc with phase := Phase.ResetTest2 }
    EspResetReason.poweron (by decide) (by decide) (by decide) (by decide) (by decide)

-- ------------------------------------------------------------------
-- C10
-- ------------------------------------------------------------------

/-- C10: when the `esp_task_wdt_reset()` call of a due feed fails, the feed
counter is not incremented, but the last-feed timestamp is still rewritten
to `now`, so any further attempt within a full feed interval of `now` does
nothing at all. -/
theorem C10_failed_feed_defers (s : SysState) (now now2 intervalMs : Nat)
    (feedOk2 : Bool)
    (hdue : intervalMs ≤ sub32 now s.gLastFeedMs)
    (hsoon : sub32 now2 now < intervalMs) :
    (wdtFeedIfDue now false intervalMs s).gFeedCount = s.gFeedCount
    ∧ (wdtFeedIfDue now false intervalMs s).gLastFeedMs = now
    ∧ wdtFeedIfDue now2 feedOk2 intervalMs (wdtFeedIfDue now false intervalMs s) =
        wdtFeedIfDue now false intervalMs s := by
  have h1 : ¬ sub32 now s.gLastFeedMs < intervalMs := Nat.not_lt.mpr hdue
  refine ⟨?_, ?_, ?_⟩
  · simp [wdtFeedIfDue, h1]
  · simp [wdtFeedIfDue, h1]
  · have h2 : (wdtFeedIfDue now false intervalMs s).gLastFeedMs = now := by
      simp [wdtFeedIfDue, h1]
    generalize hT : wdtFeedIfDue now false intervalMs s = T at h2 ⊢
    unfold wdtFeedIfDue
    rw [h2, if_pos hsoon]

/-- Witness for C10: a failed due feed at `now = 1000` leaves the counter at
5, moves the timestamp to 1000, and a retry at `now2 = 1999` is a no-op. -/
theorem C10_failed_feed_defers_witness :
    (wdtFeedIfDue 1000 false kFeedIntervalMs c6State).gFeedCount = c6State.gFeedCount
    ∧ (wdtFeedIfDue 1000 false kFeedIntervalMs c6State).gLastFeedMs = 1000
    ∧ wdtFeedIfDue 1999 true kFeedIntervalMs (wdtFeedIfDue 1000 false kFeedIntervalMs c6State) =
        wdtFeedIfDue 1000 false kFeedIntervalMs c6State :=
  C10_failed_feed_defers c6State 1000 1999 kFeedIntervalMs true (by decide) (by decide)
